import Mathlib

/-!
Shallow embedding of the iris-slack-bot classification/extraction/fanout pipeline

Source files: `src/summarizer.py` (track detection, structured extraction,
deliverables catalog, summary assembly) and `src/main.py` (keyword-based track
detection, summarize fallback, subscriber store, registration upsert, fanout).

Python strings are modelled as Lean `String`/`List Char`; the ASCII fragment of
Python's `str.lower`, `str.split`, `str.strip` and of the `re` module's `\s`
class is embedded explicitly below.  Fallible calls (the generative summarizer,
per-recipient Slack sends) are modelled as explicit `Option`/oracle parameters:
`none` models a raised exception at the call site.
-/

namespace IrisBot

/-- Python whitespace for `str.split()` / `str.strip()` / regex `\s`
(ASCII fragment): space, tab, newline, carriage return, vertical tab, form feed. -/
def pyIsSpace (c : Char) : Bool :=
  c == ' ' || c == '\t' || c == '\n' || c == '\r' || c == Char.ofNat 11 || c == Char.ofNat 12

/-- Python `pat in text` substring test on character lists. -/
def hasSub : List Char → List Char → Bool
  | [], pat => pat.isEmpty
  | c :: rest, pat => pat.isPrefixOf (c :: rest) || hasSub rest pat

/-- Python `text.lower()` (ASCII fragment). -/
def pyLower (s : String) : List Char := s.data.map Char.toLower

/-- Python `str.strip()` on a character list. -/
def pyStrip (cs : List Char) : List Char :=
  ((cs.dropWhile pyIsSpace).reverse.dropWhile pyIsSpace).reverse

/-- Python `text.split()`: split on whitespace runs, no empty words. -/
def pySplit (cs : List Char) : List (List Char) :=
  (cs.splitOnP pyIsSpace).filter (fun w => !w.isEmpty)

/-- Python `" ".join(words)`. -/
def joinSpace (ws : List (List Char)) : String :=
  String.mk (List.intercalate [' '] ws)

/-- Python `"\n".join(lines)` on strings. -/
def joinLines (ls : List String) : String :=
  String.intercalate "\n" ls

/-- Python `any(word in text for word in kws)`. -/
def kwHit (text : List Char) (kws : List String) : Bool :=
  kws.any (fun w => hasSub text w.data)

/-- `summarizer.py:6-22` (`detect_track`): lower-case the text and walk a fixed
if-chain of keyword lists; the first list with a substring hit names the track,
otherwise `"general"`. -/
def detect_track (taskText : String) : String :=
  let text := pyLower taskText
  if kwHit text ["react", "tailwind", "frontend", "ui ", "css", "chakra",
      "nextjs", "vue", "design system"] then "frontend"
  else if kwHit text ["figma", "wireframe", "prototype", "ui/ux", "design",
      "user flow"] then "uiux"
  else if kwHit text ["api", "database", "backend", "server", "django", "express",
      "fastapi", "spring", "endpoint"] then "backend"
  else if kwHit text ["android", "flutter", "kotlin", "swift", "mobile"] then "mobile"
  else if kwHit text ["docker", "deployment", "devops", "ci/cd", "kubernetes",
      "aws", "infrastructure"] then "devops"
  else if kwHit text ["data", "machine learning", "dataset", "ai", "model"] then "data"
  else "general"

/-- Case-insensitive prefix test: `pat` (given lower-case) against the text.
Models the effect of `re.IGNORECASE` on an ASCII alternation. -/
def ciMatches : List Char → List Char → Bool
  | [], _ => true
  | _ :: _, [] => false
  | p :: ps, c :: cs => p == c.toLower && ciMatches ps cs

/-- The deadline labels, in the order of the alternation
`(deadline|due|submission)` of `summarizer.py:28`. -/
def deadlineLabels : List String := ["deadline", "due", "submission"]

/-- `summarizer.py:27-31`: semantics of
`re.search(r"(deadline|due|submission)\s*[:\-]*\s*(.*)", text, re.IGNORECASE)`,
returning the second capture group.  `re.search` takes the leftmost position at
which the pattern matches (the suffix after a label always matches, since every
later piece can be empty); the alternation is tried in written order; the greedy
pieces `\s*`, `[:\-]*`, `\s*` consume maximal runs (no backtracking can occur as
everything after them is optional); `(.*)` stops at a newline or at the end. -/
def deadlineGroup2 : List Char → Option (List Char)
  | [] => none
  | c :: rest =>
    match deadlineLabels.findSome?
        (fun l => if ciMatches l.data (c :: rest) then some l.data.length else none) with
    | some n =>
      let a1 := ((c :: rest).drop n).dropWhile pyIsSpace
      let a2 := a1.dropWhile (fun ch => ch == ':' || ch == '-')
      let a3 := a2.dropWhile pyIsSpace
      some (a3.takeWhile (fun ch => ch != '\n'))
    | none => deadlineGroup2 rest

/-- `summarizer.py:27-32`: the extracted deadline string —
`group(2).strip()` if the regex matched, else `"Not specified"`. -/
def deadlineOf (taskText : String) : String :=
  match deadlineGroup2 taskText.data with
  | some g => String.mk (pyStrip g)
  | none => "Not specified"

/-- A match of the endpoint regex `(GET|POST|DELETE|PUT|PATCH)\s+[^\s]+`
(`summarizer.py:38`): the capture group (the verb) and the full matched text. -/
structure EndpointMatch where
  verb : String
  full : String
deriving DecidableEq, Repr

/-- HTTP verbs in the order of the alternation of `summarizer.py:38`
(case-sensitive — the endpoint regex is compiled without `re.IGNORECASE`). -/
def httpVerbs : List String := ["GET", "POST", "DELETE", "PUT", "PATCH"]

/-- Attempt to match `(GET|POST|DELETE|PUT|PATCH)\s+[^\s]+` at the head of the
text: a verb from the alternation (in order), then a maximal nonempty
whitespace run, then a maximal nonempty non-whitespace run.  Returns the match
object and the remaining text after the match. -/
def endpointMatchAt (cs : List Char) : Option (EndpointMatch × List Char) :=
  httpVerbs.findSome? fun v =>
    if v.data.isPrefixOf cs then
      let r1 := cs.drop v.data.length
      let w := r1.takeWhile pyIsSpace
      if w.isEmpty then none
      else
        let r2 := r1.drop w.length
        let p := r2.takeWhile (fun ch => !pyIsSpace ch)
        if p.isEmpty then none
        else some (⟨v, v ++ String.mk w ++ String.mk p⟩, r2.drop p.length)
    else none

/-- The left-to-right, non-overlapping scan of `re.findall`: try the pattern at
each position; on a match, resume after the matched text, otherwise advance one
character.  The fuel starts at the text length; every step strictly shortens
the text, so the fuel is never exhausted first. -/
def endpointScanAux : Nat → List Char → List EndpointMatch
  | 0, _ => []
  | _ + 1, [] => []
  | fuel + 1, c :: rest =>
    match endpointMatchAt (c :: rest) with
    | some (m, after) => m :: endpointScanAux fuel after
    | none => endpointScanAux fuel rest

/-- All matches of the endpoint regex in the text, in order of appearance. -/
def endpointScan (taskText : String) : List EndpointMatch :=
  endpointScanAux taskText.data.length taskText.data

/-- `summarizer.py:38`: `re.findall` applied to a pattern with exactly one
capture group returns the list of group captures — here the bare verbs, not
the verb-plus-path match texts. -/
def findallEndpoints (taskText : String) : List String :=
  (endpointScan taskText).map (fun m => m.verb)

/-- The result dict of `extract_structured_info` (`summarizer.py:40`). -/
structure Extraction where
  endpoints : List String
  deadline : String
  track : String
deriving DecidableEq, Repr

/-- `summarizer.py:25-40` (`extract_structured_info`): deadline by regex
search; track re-detected from the text itself; the endpoint scan runs only
when that track is `"backend"`, otherwise `endpoints` stays `[]`. -/
def extract_structured_info (taskText : String) : Extraction :=
  let deadline := deadlineOf taskText
  let track := detect_track taskText
  let endpoints := if track == "backend" then findallEndpoints taskText else []
  ⟨endpoints, deadline, track⟩

/-- The deliverables table of `summarizer.py:43-93`, in source order. -/
def deliverablesTable : List (String × List String) :=
  [("frontend",
    ["Build responsive UI components", "Implement state management",
     "Add loading & error states", "Deploy demo (Vercel/Netlify)",
     "Provide README + screenshots"]),
   ("uiux",
    ["Create wireframes + UI mockups", "Develop responsive high-fidelity designs",
     "Share Figma link + prototype", "Deliver design system components",
     "Export assets + documentation"]),
   ("backend",
    ["Implement API endpoints", "Add validation + DB persistence",
     "Include testing (if needed)", "Provide Postman/API docs",
     "Add setup instructions"]),
   ("mobile",
    ["Build mobile screens and navigation", "Implement state handling",
     "Ensure responsiveness + offline mode", "Deploy build (APK/TestFlight)",
     "Provide demo video + README"]),
   ("devops",
    ["Setup CI/CD pipeline", "Deploy scalable environment",
     "Add monitoring + logging", "Provide Docker/Terraform if needed",
     "Write deployment docs"]),
   ("data",
    ["Prepare and clean dataset", "Train + evaluate model or pipeline",
     "Show performance metrics", "Provide notebooks/code",
     "Write insights report"]),
   ("general",
    ["Understand requirements", "Deliver working solution",
     "Test thoroughly", "Write clear documentation"])]

/-- `summarizer.py:43-94` (`get_deliverables_for_track`):
`deliverables.get(track, deliverables["general"])`. -/
def get_deliverables_for_track (track : String) : List String :=
  match deliverablesTable.find? (fun p => p.1 == track) with
  | some p => p.2
  | none => ["Understand requirements", "Deliver working solution",
             "Test thoroughly", "Write clear documentation"]

/-- `summarizer.py:99-100`: `if len(task_text.split()) > 700:
task_text = " ".join(task_text.split()[:700])`. -/
def truncate700 (taskText : String) : String :=
  let ws := pySplit taskText.data
  if ws.length > 700 then joinSpace (ws.take 700) else taskText

/-- `summarizer.py:116`: `track = forced_track or structured["track"]` —
Python `or` falls through on a falsy forced track (`None` or `""`). -/
def effectiveTrack (forced : Option String) (detected : String) : String :=
  match forced with
  | some s => if s == "" then detected else s
  | none => detected

/-- The fixed fallback sentence of `summarizer.py:111`. -/
def fallbackSummary : String := "Summary unavailable — task processed without AI model."

/-- The intermediate values of `summarize_task` (`summarizer.py:97-126`):
effective track, AI or fallback summary, extracted deadline, the rendered
endpoints section and the rendered deliverables section. -/
structure SummaryParts where
  track : String
  aiSummary : String
  deadline : String
  endpointsText : String
  deliverablesText : String
deriving DecidableEq, Repr

/-- `summarizer.py:97-125` up to the final f-string.  The generative call
(`summarizer.py:103-111`) is modelled by the oracle `gen`: `some s` is a
successful call returning `s`, `none` is a raised exception, caught by the
`try/except` and replaced by the fallback sentence.  The text is truncated to
its first 700 whitespace-delimited words first; extraction runs on the
truncated text; the endpoints section renders a bullet list only when the
effective track is `"backend"` and the (scan-produced) endpoint list is
nonempty, else the literal `"_Not applicable_"`. -/
def summarizeTaskParts (taskText : String) (gen : Option String)
    (forcedTrack : Option String) : SummaryParts :=
  let t := truncate700 taskText
  let aiSummary := match gen with
    | some s => s
    | none => fallbackSummary
  let structured := extract_structured_info t
  let track := effectiveTrack forcedTrack structured.track
  let deliverables := get_deliverables_for_track track
  let deliverablesText := joinLines (deliverables.map (fun d => "- " ++ d))
  let endpointsText :=
    if track == "backend" && !structured.endpoints.isEmpty then
      joinLines (structured.endpoints.map (fun e => "- `" ++ e ++ "`"))
    else "_Not applicable_"
  ⟨track, aiSummary, structured.deadline, endpointsText, deliverablesText⟩

/-- Python `str.capitalize()`: first character upper-cased, the rest
lower-cased (ASCII fragment). -/
def pyCapitalize (s : String) : String :=
  match s.data with
  | [] => ""
  | c :: r => String.mk (c.toUpper :: r.map Char.toLower)

/-- `summarizer.py:127-139`: the final f-string of `summarize_task`,
`.strip()`-ed. -/
def summarize_task (taskText : String) (gen : Option String)
    (forcedTrack : Option String) : String :=
  let p := summarizeTaskParts taskText gen forcedTrack
  String.mk (pyStrip
    ("\n📢 *New " ++ pyCapitalize p.track ++ " Task Summary*\n\n*🧭 Summary:* "
      ++ p.aiSummary ++ "\n\n*🗓 Deadline:* " ++ p.deadline
      ++ "\n\n*🔑 Key Endpoints (if any):*\n" ++ p.endpointsText
      ++ "\n\n*✅ Key Deliverables:*\n" ++ p.deliverablesText ++ "\n").data)

/-- `main.py:41-50` (`TRACK_KEYWORDS`): ordered (track, keyword list) pairs —
Python dicts iterate in insertion order. -/
def TRACK_KEYWORDS : List (String × List String) :=
  [("backend", ["backend", "backend wizards", "server", "api", "stage 0 backend",
                "profile endpoint"]),
   ("frontend", ["frontend", "ui", "react", "vue", "stage 1 frontend"]),
   ("design", ["design", "ui/ux", "ui-ux", "designers", "graphics", "ux"]),
   ("devops", ["devops", "nginx", "blue/green", "infrastructure"]),
   ("marketing", ["sales", "marketing"]),
   ("video", ["video", "editing", "video editing"]),
   ("pm", ["pm", "product", "project manager"]),
   ("no-code", ["no-code", "no code", "automation"])]

/-- First track of an ordered (track, keyword list) table whose keyword list
has a substring hit in the lower-cased text; `none` if no row hits.  This is
the spec's "ordered list of (track, keyword_set) pairs, first substring match"
policy (§4.1), stated independently of either classifier's control flow. -/
def firstKeywordTrack (table : List (String × List String)) (text : String) :
    Option String :=
  let t := pyLower text
  table.findSome? fun p => if kwHit t p.2 then some p.1 else none

/-- `main.py:52-58` (`detect_track_by_keywords`): lower-case the text, walk
the keyword table in order and return the first track with a substring hit;
`None` when nothing matches. -/
def detect_track_by_keywords (text : String) : Option String :=
  let t := pyLower text
  TRACK_KEYWORDS.findSome? fun p => if kwHit t p.2 then some p.1 else none

/-- `main.py:60-72` (`summarize_text`): the generative call is the oracle
`gen` (`none` = raised exception); on failure the fallback is the first 400
characters of the stripped text, with `"..."` appended when the text is longer
than 400 characters.  (The 15000-character slice before the call only affects
the argument passed to the external summarizer, which the oracle models.) -/
def summarize_text (text : String) (gen : Option String) : String :=
  match gen with
  | some s => s
  | none =>
    String.mk ((pyStrip text.data).take 400) ++
      (if text.data.length > 400 then "..." else "")

/-- A row of the `UserTrack` table (`main.py:21-26`): one track string per
record, a contact method and an optional email. -/
structure UserTrack where
  userId : String
  track : String
  contact : String
  email : Option String
deriving DecidableEq, Repr

/-- `main.py:76`: `select(UserTrack).where(UserTrack.track == track)` — the
recipients of a fanout are the stored rows whose single `track` column equals
the target track exactly. -/
def notifyRecipients (store : List UserTrack) (track : String) : List UserTrack :=
  store.filter (fun u => u.track == track)

/-- Outcome log of the fanout loop: which user ids were successfully messaged
and which sends raised (and were caught and logged). -/
structure FanoutLog where
  sent : List String
  failed : List String
deriving DecidableEq, Repr

/-- `main.py:77-87`: the delivery loop of `notify_track_users`.  Each
iteration wraps `chat_postMessage` in `try/except`; the oracle `sendOk` tells
whether the send for a given user id succeeds (`false` = the call raises, the
`except` branch logs and the loop continues).  The loop itself is total: no
per-recipient failure escapes it. -/
def notifyLoop (users : List UserTrack) (sendOk : String → Bool) : FanoutLog :=
  match users with
  | [] => ⟨[], []⟩
  | u :: rest =>
    let l := notifyLoop rest sendOk
    if sendOk u.userId then ⟨u.userId :: l.sent, l.failed⟩
    else ⟨l.sent, u.userId :: l.failed⟩

/-- The per-recipient DM text built in `main.py:78-81`. -/
def dmText (title summary : String) (slackLink : Option String) : String :=
  "*" ++ title ++ "*  \n" ++ summary ++ "\n\n" ++
    (match slackLink with
     | some l => "<" ++ l ++ "|View original announcement>\n"
     | none => "") ++
    "\n_This was sent by HNG Task Assistant_"

/-- The values extracted from a registration modal submission
(`main.py:151-155`). -/
structure Submission where
  userId : String
  track : String
  contact : String
  email : Option String
deriving DecidableEq, Repr

/-- The row written for a submission. -/
def recOf (s : Submission) : UserTrack :=
  ⟨s.userId, s.track, s.contact, s.email⟩

/-- `main.py:157-168` (`handle_view_submission`, DB part): look up the first
row with the submitting `user_id`; if present overwrite its `track`, `contact`
and `email` in place, otherwise append a new row.  No validation of the track
value is performed. -/
def register (store : List UserTrack) (s : Submission) : List UserTrack :=
  match store with
  | [] => [recOf s]
  | r :: rest =>
    if r.userId == s.userId then
      { r with track := s.track, contact := s.contact, email := s.email } :: rest
    else r :: register rest s

/-- A sequence of registration submissions applied to an initially empty
store. -/
def registerAll (subs : List Submission) : List UserTrack :=
  subs.foldl register []

/-- The closed track catalog offered by the registration modal
(`main.py:111-118`), in option order. -/
def trackCatalog : List String :=
  ["backend", "frontend", "design", "devops", "marketing", "video", "pm", "no-code"]

/-! Claim-side (spec-following) definitions.

These definitions follow the wording of the spec/claims rather than the
source; they exist only to state refinement theorems and counterexamples
against the source-derived definitions above. -/

/-- The priority order of `detect_track` as an explicit ordered table
(the documented priority order of spec §4.1, refined-policy variant). -/
def summarizerTable : List (String × List String) :=
  [("frontend", ["react", "tailwind", "frontend", "ui ", "css", "chakra",
                 "nextjs", "vue", "design system"]),
   ("uiux", ["figma", "wireframe", "prototype", "ui/ux", "design", "user flow"]),
   ("backend", ["api", "database", "backend", "server", "django", "express",
                "fastapi", "spring", "endpoint"]),
   ("mobile", ["android", "flutter", "kotlin", "swift", "mobile"]),
   ("devops", ["docker", "deployment", "devops", "ci/cd", "kubernetes",
               "aws", "infrastructure"]),
   ("data", ["data", "machine learning", "dataset", "ai", "model"])]

/-- Python `s.split(",")` on a character list. -/
def splitComma : List Char → List (List Char)
  | [] => [[]]
  | c :: rest =>
    if c == ',' then [] :: splitComma rest
    else
      match splitComma rest with
      | [] => [[c]]
      | w :: ws => (c :: w) :: ws

/-- Follows the spec's words, not the source: §3/§9 describe the subscriber's
`tracks` as a set "stored as a delimited string"; this decodes that encoding
from the single `track` column.  `src/main.py` itself never splits the column
— the fanout query compares the whole string for equality. -/
def specTracksOf (u : UserTrack) : List String :=
  (splitComma u.track.data).map String.mk

/-- Follows claim C6's words, not the source: find the first case-insensitive
occurrence of a label from `{deadline, due, submission}`, optionally skip
colon/dash separator characters, return everything after that up to the end
of the line (or of the text), trimmed; `"Not specified"` when no label
occurs. -/
def claimDeadlineAux : List Char → Option (List Char)
  | [] => none
  | c :: rest =>
    match deadlineLabels.findSome?
        (fun l => if ciMatches l.data (c :: rest) then some l.data.length else none) with
    | some n =>
      let after := ((c :: rest).drop n).dropWhile (fun ch => ch == ':' || ch == '-')
      some (after.takeWhile (fun ch => ch != '\n'))
    | none => claimDeadlineAux rest

/-- The deadline value claim C6 describes (see `claimDeadlineAux`). -/
def claimDeadline (s : String) : String :=
  match claimDeadlineAux s.data with
  | some g => String.mk (pyStrip g)
  | none => "Not specified"

/-- Whether some deadline label occurs (case-insensitively) anywhere in the
text — stated via the generic substring test, independently of the
position-scan used by `deadlineGroup2`. -/
def hasDeadlineLabel (s : String) : Bool :=
  deadlineLabels.any (fun l => hasSub (pyLower s) l.data)

/-- A 701-word text: the words `api GET /u`, then 697 filler words `z`, then
`react`.  On the whole text the classifier answers `frontend` (the keyword
`react` is checked first); the first 700 words contain `api` but not `react`,
so after `summarize_task`'s truncation the re-detected track is `backend` and
the endpoint scan finds `GET /u`. -/
def longText : String :=
  "api GET /u " ++ String.mk (List.intercalate [' '] (List.replicate 697 ['z'])) ++ " react"

/-! Helper lemmas. -/

lemma register_filter (s : Submission) (u : String) (store : List UserTrack)
    (h : (store.filter (fun r => r.userId == s.userId)).length ≤ 1) :
    (register store s).filter (fun r => r.userId == u) =
      if u = s.userId then [recOf s]
      else store.filter (fun r => r.userId == u) := by
  induction store with
  | nil =>
    by_cases hu : u = s.userId
    · simp [register, recOf, List.filter_cons, hu]
    · have hsu : ¬ s.userId = u := fun he => hu he.symm
      simp [register, recOf, List.filter_cons, hu, hsu]
  | cons r rest ih =>
    by_cases hr : r.userId = s.userId
    · have hrest : rest.filter (fun r => r.userId == s.userId) = [] := by
        simp only [List.filter_cons, hr, beq_self_eq_true, if_pos] at h
        have : (rest.filter (fun r => r.userId == s.userId)).length = 0 := by
          simpa using h
        simpa using this
      by_cases hu : u = s.userId
      · simp [register, hr, List.filter_cons, hu, hrest, recOf]
      · have hsu : ¬ s.userId = u := fun he => hu he.symm
        simp [register, hr, List.filter_cons, hu, hsu]
    · have h' : (rest.filter (fun r => r.userId == s.userId)).length ≤ 1 := by
        simpa [List.filter_cons, hr] using h
      by_cases hru : r.userId = u
      · have hus : ¬ u = s.userId := fun he => hr (hru.trans he)
        simp [register, hr, List.filter_cons, hru, hus, ih h']
      · simp [register, hr, List.filter_cons, hru, ih h']

lemma register_inv (s : Submission) (store : List UserTrack)
    (h : ∀ v, (store.filter (fun r => r.userId == v)).length ≤ 1) :
    ∀ v, ((register store s).filter (fun r => r.userId == v)).length ≤ 1 := by
  intro v
  rw [register_filter s v store (h s.userId)]
  split
  · simp
  · exact h v

lemma foldl_register_filter (subs : List Submission) :
    ∀ store : List UserTrack,
      (∀ v, (store.filter (fun r => r.userId == v)).length ≤ 1) →
      ∀ u, (subs.foldl register store).filter (fun r => r.userId == u) =
        match subs.reverse.find? (fun s => s.userId == u) with
        | some s => [recOf s]
        | none => store.filter (fun r => r.userId == u) := by
  induction subs with
  | nil => intro store h u; simp
  | cons s₀ rest ih =>
    intro store h u
    have step := ih (register store s₀) (register_inv s₀ store h) u
    have base := register_filter s₀ u store (h s₀.userId)
    simp only [List.foldl_cons, List.reverse_cons, List.find?_append]
    rw [step]
    cases hf : rest.reverse.find? (fun s => s.userId == u) with
    | some s => simp [hf, Option.or]
    | none =>
      rw [base]
      by_cases hu : u = s₀.userId
      · simp [hu, List.find?]
      · have hne : (s₀.userId == u) = false := by
          simp only [beq_eq_false_iff_ne, ne_eq]
          exact fun he => hu he.symm
        simp [List.find?, hne, hu]

/-! Theorems for the claims. -/

/-- C1 (counterexample): the claim says a stored subscriber whose tracks set
is `{frontend, backend}` is selected for a fanout targeting `{backend}`.  The
`UserTrack` schema has a single `track` string column; the only way such a
record can hold two tracks is the delimited-string encoding that the spec
itself posits (§9), and the fanout query of `main.py:76` compares the whole
column for equality, so that record is selected for no track's fanout —
stored multi-track membership is never honoured. -/
theorem c1_multi_track_subscriber_excluded :
    specTracksOf ⟨"U1", "frontend,backend", "slack", none⟩ = ["frontend", "backend"] ∧
    "backend" ∈ specTracksOf ⟨"U1", "frontend,backend", "slack", none⟩ ∧
    notifyRecipients [⟨"U1", "frontend,backend", "slack", none⟩] "backend" = [] ∧
    notifyRecipients [⟨"U1", "frontend,backend", "slack", none⟩] "frontend" = [] := by
  decide

/-- C1 (amended): fanout dispatch targets a single track, and a stored
subscriber is selected as a recipient iff its single stored `track` string
equals the target track exactly — a single-track equality test, not a
multi-membership intersection test.  For target `backend`, a subscriber row
with track `frontend` is excluded; a row holding two tracks is not
representable (and a delimited encoding of two tracks is also excluded, see
the counterexample). -/
theorem c1_fanout_selects_by_single_track_equality
    (store : List UserTrack) (t : String) (u : UserTrack) :
    u ∈ notifyRecipients store t ↔ u ∈ store ∧ u.track = t := by
  simp [notifyRecipients, List.mem_filter]

/-- C2 (confirmed): the fanout loop of `notify_track_users` (`main.py:77-87`)
attempts delivery to every recipient.  For every recipient list and every
pattern of per-recipient send outcomes (the oracle `sendOk`; `false` models
`chat_postMessage` raising, caught by the per-iteration `try/except`), the
successful sends are exactly the recipients whose send succeeds and the
failures exactly the others — a failure never removes a later recipient from
the attempted batch.  `notifyLoop` is a total function returning its log, so
no per-recipient failure propagates to the caller. -/
theorem c2_fanout_attempts_all_recipients
    (users : List UserTrack) (sendOk : String → Bool) :
    (notifyLoop users sendOk).sent =
      (users.filter (fun u => sendOk u.userId)).map (fun u => u.userId) ∧
    (notifyLoop users sendOk).failed =
      (users.filter (fun u => !sendOk u.userId)).map (fun u => u.userId) := by
  induction users with
  | nil => simp [notifyLoop]
  | cons u rest ih =>
    cases h : sendOk u.userId <;>
      simp [notifyLoop, List.filter_cons, h, ih.1, ih.2]

/-- C3 (confirmed): when the generative call raises (`gen = none`, caught by
the `try/except` of `summarizer.py:103-111`), `summarize_task` still produces
the complete document parts: they equal the parts of a successful run except
that the summary section is the fixed fallback sentence, and the deadline and
deliverables sections are exactly the values extracted from the (truncated)
text.  The embedding is a total function: the failure never propagates. -/
theorem c3_summarizer_failure_degrades_to_fallback
    (text s : String) (forced : Option String) :
    summarizeTaskParts text none forced =
      { summarizeTaskParts text (some s) forced with aiSummary := fallbackSummary } ∧
    (summarizeTaskParts text none forced).aiSummary = fallbackSummary ∧
    (summarizeTaskParts text none forced).deadline =
      (extract_structured_info (truncate700 text)).deadline ∧
    (summarizeTaskParts text none forced).deliverablesText =
      joinLines ((get_deliverables_for_track
        (effectiveTrack forced (extract_structured_info (truncate700 text)).track)).map
          (fun d => "- " ++ d)) :=
  ⟨rfl, rfl, rfl, rfl⟩

/-- C8 (confirmed): applying any sequence of registration submissions to an
empty store leaves, for every user id, at most one row — namely exactly the
row of that user's latest submission (last write wins, fields fully replaced,
no merge) — and no row at all for users who never submitted.  In particular,
registering `U` with `backend` and then with `frontend` leaves exactly one
row for `U` with track `frontend`. -/
theorem c8_registration_last_write_wins (subs : List Submission) (u : String) :
    ((registerAll subs).filter (fun r => r.userId == u) =
      match subs.reverse.find? (fun s => s.userId == u) with
      | some s => [recOf s]
      | none => []) ∧
    registerAll [⟨"U", "backend", "slack", none⟩, ⟨"U", "frontend", "slack", none⟩] =
      [⟨"U", "frontend", "slack", none⟩] := by
  refine ⟨?_, by decide⟩
  simpa [registerAll] using foldl_register_filter subs [] (by simp) u

/-- C9 (counterexample): the claim says a submission carrying a track value
outside the closed catalog is rejected with a validation error leaving the
store unchanged.  `handle_view_submission` (`main.py:148-168`) validates
nothing: a submission with the out-of-catalog track `"quantum"` is upserted,
changing the store. -/
theorem c9_unvalidated_track_is_stored :
    "quantum" ∉ trackCatalog ∧
    register [] ⟨"U1", "quantum", "slack", none⟩ =
      [⟨"U1", "quantum", "slack", none⟩] := by
  decide

/-- C9 (amended): the registration handler performs no validation of the
selected track: even a submission whose track is outside the closed catalog
is upserted as-is, leaving exactly one row for the submitting user holding
the submitted values.  (Non-empty, in-catalog selections are enforced only by
the Slack modal UI, outside this code; an empty selection would make the
handler raise before touching the store.) -/
theorem c9_register_accepts_any_track (store : List UserTrack) (s : Submission)
    (hcat : s.track ∉ trackCatalog)
    (h : (store.filter (fun r => r.userId == s.userId)).length ≤ 1) :
    (register store s).filter (fun r => r.userId == s.userId) = [recOf s] := by
  simpa using register_filter s s.userId store h

/-- C9 witness: the amended theorem applied to the out-of-catalog track
`"quantum"` on an empty store. -/
theorem c9_register_accepts_any_track_witness :
    (register [] ⟨"U2", "quantum", "slack", none⟩).filter
      (fun r => r.userId == "U2") = [recOf ⟨"U2", "quantum", "slack", none⟩] :=
  c9_register_accepts_any_track [] ⟨"U2", "quantum", "slack", none⟩
    (by decide) (by decide)

lemma endpoints_nil_of_not_backend (t : String) (h : detect_track t ≠ "backend") :
    (extract_structured_info t).endpoints = [] := by
  have hb : (detect_track t == "backend") = false := beq_eq_false_iff_ne.mpr h
  simp [extract_structured_info, hb]

lemma endpointsText_na (text : String) (gen forced : Option String)
    (h : detect_track (truncate700 text) ≠ "backend") :
    (summarizeTaskParts text gen forced).endpointsText = "_Not applicable_" := by
  simp [summarizeTaskParts, endpoints_nil_of_not_backend _ h]

set_option maxRecDepth 40000 in
/-- C4 (counterexample): on a 701-word text classified `frontend` (so not
`backend`), extraction on the text itself indeed returns no endpoints, but
the assembled summary does not render the "not applicable" marker: the claim
overlooks that `summarize_task` truncates to 700 words before re-detecting
the track, and on `longText` the truncation drops the `react` keyword, the
re-detected track is `backend`, the scan runs and the endpoints section
renders the found verb. -/
theorem c4_truncation_reenables_endpoint_scan :
    detect_track longText = "frontend" ∧
    (extract_structured_info longText).endpoints = [] ∧
    detect_track (truncate700 longText) = "backend" ∧
    (summarizeTaskParts longText none none).endpointsText = "- `GET`" := by
  decide

/-- C4 (amended): extraction returns `endpoints = []` whenever the track it
detects from the text it is given is not `backend` (the scan is skipped); and
the assembled summary renders the endpoints section as `"_Not applicable_"`
whenever the track detected from the 700-word truncation of the input is not
`backend` — for inputs of at most 700 words this coincides with the input's
own classified track, but not in general (see the counterexample). -/
theorem c4_endpoints_suppressed_for_non_backend
    (text : String) (gen forced : Option String) :
    (detect_track text ≠ "backend" → (extract_structured_info text).endpoints = []) ∧
    (detect_track (truncate700 text) ≠ "backend" →
      (summarizeTaskParts text gen forced).endpointsText = "_Not applicable_") :=
  ⟨fun h => endpoints_nil_of_not_backend text h,
   fun h => endpointsText_na text gen forced h⟩

/-- C4 witness: a short `frontend` text containing `GET /users` still gets no
endpoints and an explicitly not-applicable endpoints section. -/
theorem c4_endpoints_suppressed_witness :
    (extract_structured_info "react task GET /users").endpoints = [] ∧
    (summarizeTaskParts "react task GET /users" none none).endpointsText =
      "_Not applicable_" :=
  ⟨(c4_endpoints_suppressed_for_non_backend "react task GET /users" none none).1
      (by decide),
   (c4_endpoints_suppressed_for_non_backend "react task GET /users" none none).2
      (by decide)⟩

set_option maxRecDepth 40000 in
/-- C10 (counterexample): with `forced_track = "backend"` on the 701-word
`longText`, whose detected track is `frontend` (not `backend`), the endpoints
section is not rendered as "not applicable": truncation to 700 words drops
the `react` keyword, extraction re-detects `backend` on the truncated text,
the scan runs, and the section renders the found verb. -/
theorem c10_forced_backend_renders_truncated_scan :
    detect_track longText = "frontend" ∧
    (summarizeTaskParts longText none (some "backend")).endpointsText = "- `GET`" := by
  decide

/-- C10 (amended): in `summarize_task`, `forced_track` overrides the detected
track for the effective track (hence the title) and the deliverables
checklist, but the endpoint scan inside `extract_structured_info` is
conditioned on the track re-detected from the (truncated) text itself:
whenever the track detected from the 700-word truncation is not `backend`,
`summarize_task(text, forced_track="backend")` renders the endpoints section
as `"_Not applicable_"` even if the text contains HTTP verb/path patterns.
For the claim's phrase "detected track of the text" this holds exactly when
the input has at most 700 words (see the counterexample). -/
theorem c10_forced_track_overrides_but_scan_uses_detected
    (text : String) (gen : Option String)
    (h : detect_track (truncate700 text) ≠ "backend") :
    (summarizeTaskParts text gen (some "backend")).track = "backend" ∧
    (summarizeTaskParts text gen (some "backend")).deliverablesText =
      joinLines ((get_deliverables_for_track "backend").map (fun d => "- " ++ d)) ∧
    (summarizeTaskParts text gen (some "backend")).endpointsText = "_Not applicable_" :=
  ⟨rfl, rfl, endpointsText_na text gen (some "backend") h⟩

/-- C10 witness: forcing `backend` on a short `frontend` text containing
`GET /users` gives a backend title/deliverables but a not-applicable
endpoints section. -/
theorem c10_forced_track_witness :
    (summarizeTaskParts "react task GET /users" none (some "backend")).track = "backend" ∧
    (summarizeTaskParts "react task GET /users" none (some "backend")).deliverablesText =
      joinLines ((get_deliverables_for_track "backend").map (fun d => "- " ++ d)) ∧
    (summarizeTaskParts "react task GET /users" none (some "backend")).endpointsText =
      "_Not applicable_" :=
  c10_forced_track_overrides_but_scan_uses_detected "react task GET /users" none
    (by decide)

lemma endpointMatchAt_verb_mem {cs : List Char} {m : EndpointMatch}
    {rest : List Char} (h : endpointMatchAt cs = some (m, rest)) :
    m.verb ∈ httpVerbs := by
  obtain ⟨v, hv, hfv⟩ := List.exists_of_findSome?_eq_some h
  simp only at hfv
  split at hfv
  · split at hfv
    · exact absurd hfv (by simp)
    · split at hfv
      · exact absurd hfv (by simp)
      · simp only [Option.some.injEq, Prod.mk.injEq] at hfv
        rw [← hfv.1]
        exact hv
  · exact absurd hfv (by simp)

lemma endpointScanAux_verb_mem :
    ∀ (fuel : Nat) (cs : List Char), ∀ m ∈ endpointScanAux fuel cs,
      m.verb ∈ httpVerbs := by
  intro fuel
  induction fuel with
  | zero => intro cs m hm; simp [endpointScanAux] at hm
  | succ f ih =>
    intro cs m hm
    cases cs with
    | nil => simp [endpointScanAux] at hm
    | cons c rest =>
      cases hmt : endpointMatchAt (c :: rest) with
      | some pr =>
        obtain ⟨m₀, after⟩ := pr
        rw [endpointScanAux, hmt] at hm
        rcases List.mem_cons.mp hm with hme | hmem
        · exact hme ▸ endpointMatchAt_verb_mem hmt
        · exact ih after m hmem
      | none =>
        rw [endpointScanAux, hmt] at hm
        exact ih rest m hm

/-- C5 (counterexample): the claim says a backend-classified text containing
`GET /users` yields `endpoints = ["GET /users"]`.  The regex of
`summarizer.py:38` has one capture group around the verb alternation, and
Python's `re.findall` returns the group captures, so the stored list is the
bare verbs: `["GET"]`, not `["GET /users"]` — even though the full match text
of the single match is `"GET /users"`. -/
theorem c5_findall_returns_bare_verbs :
    detect_track "api GET /users" = "backend" ∧
    (extract_structured_info "api GET /users").endpoints = ["GET"] ∧
    (extract_structured_info "api GET /users").endpoints ≠ ["GET /users"] ∧
    (endpointScan "api GET /users").map (fun m => m.full) = ["GET /users"] := by
  decide

/-- C5 (amended): for every backend-classified text, extraction collects one
entry per match of an HTTP verb (GET, POST, PUT, PATCH, DELETE) immediately
followed by whitespace and a non-whitespace path token, in order of
appearance with duplicates retained — but each stored entry is the bare verb
(the regex capture group), not the full verb-plus-path string.  The last
conjunct shows order and duplicates on a three-match text. -/
theorem c5_backend_endpoints_are_scan_verbs (text : String)
    (h : detect_track text = "backend") :
    (extract_structured_info text).endpoints =
      (endpointScan text).map (fun m => m.verb) ∧
    (∀ e ∈ (extract_structured_info text).endpoints, e ∈ httpVerbs) ∧
    findallEndpoints "api GET /a POST /b GET /a" = ["GET", "POST", "GET"] := by
  have hb : (detect_track text == "backend") = true := beq_iff_eq.mpr h
  refine ⟨by simp [extract_structured_info, findallEndpoints, hb], ?_, by decide⟩
  intro e he
  simp only [extract_structured_info, hb, if_pos, findallEndpoints,
    List.mem_map] at he
  obtain ⟨m, hm, hme⟩ := he
  exact hme ▸ endpointScanAux_verb_mem _ _ m hm

/-- C5 witness: the amended theorem applied to the backend text
`"api POST /v1/x"`. -/
theorem c5_backend_endpoints_witness :
    (extract_structured_info "api POST /v1/x").endpoints =
      (endpointScan "api POST /v1/x").map (fun m => m.verb) :=
  (c5_backend_endpoints_are_scan_verbs "api POST /v1/x" (by decide)).1

lemma ciMatches_eq (p : List Char) :
    ∀ cs : List Char, ciMatches p cs = p.isPrefixOf (cs.map Char.toLower) := by
  induction p with
  | nil => intro cs; simp [ciMatches, List.isPrefixOf]
  | cons a as ih =>
    intro cs
    cases cs with
    | nil => simp [ciMatches, List.isPrefixOf]
    | cons c cs' => simp [ciMatches, List.isPrefixOf, ih]

lemma deadlineGroup2_none_iff :
    ∀ cs : List Char, deadlineGroup2 cs = none ↔
      ∀ l ∈ deadlineLabels, hasSub (cs.map Char.toLower) l.data = false := by
  intro cs
  induction cs with
  | nil =>
    simp only [deadlineGroup2, List.map_nil, true_iff]
    decide
  | cons c rest ih =>
    cases hf : deadlineLabels.findSome?
        (fun l => if ciMatches l.data (c :: rest) then some l.data.length else none) with
    | some n =>
      obtain ⟨l, hl, hfl⟩ := List.exists_of_findSome?_eq_some hf
      have hp : ciMatches l.data (c :: rest) = true := by
        by_cases hc : ciMatches l.data (c :: rest) = true
        · exact hc
        · simp [hc] at hfl
      constructor
      · intro hnone
        rw [deadlineGroup2, hf] at hnone
        exact absurd hnone (by simp)
      · intro hall
        exfalso
        have hsub := hall l hl
        rw [ciMatches_eq] at hp
        rw [List.map_cons] at hsub
        rw [hasSub] at hsub
        rw [← List.map_cons, hp] at hsub
        simp at hsub
    | none =>
      have heq : deadlineGroup2 (c :: rest) = deadlineGroup2 rest := by
        rw [deadlineGroup2, hf]
      have hnofix : ∀ l ∈ deadlineLabels,
          (l.data.isPrefixOf ((c :: rest).map Char.toLower)) = false := by
        intro l hl
        have hnone := List.findSome?_eq_none_iff.mp hf l hl
        rw [← ciMatches_eq]
        by_cases hc : ciMatches l.data (c :: rest) = true
        · simp [hc] at hnone
        · simpa using hc
      rw [heq, ih]
      constructor
      · intro hall l hl
        rw [List.map_cons, hasSub, ← List.map_cons, hnofix l hl, hall l hl]
        rfl
      · intro hall l hl
        have := hall l hl
        rw [List.map_cons, hasSub, ← List.map_cons, hnofix l hl] at this
        simpa using this

/-- C6 (counterexample): the claim says the deadline value is everything
after the label (and optional colon/dash separators) up to the end of the
line, trimmed.  On `"deadline:\nFriday, 5pm"` that value is empty — the rest
of the label's line is empty — but the code's regex `\s*[:\-]*\s*` skips the
newline (Python `\s` matches `\n`) and `(.*)` then captures the next line, so
the code extracts `"Friday, 5pm"`.  `claimDeadline` is the claim's wording as
a function; `extract_structured_info` is the code. -/
theorem c6_deadline_value_crosses_newline :
    claimDeadline "deadline:\nFriday, 5pm" = "" ∧
    (extract_structured_info "deadline:\nFriday, 5pm").deadline = "Friday, 5pm" := by
  decide

/-- C6 (amended): deadline extraction finds the first case-insensitive
occurrence of a label from `{deadline, due, submission}`, skips a maximal run
of whitespace, then colon/dash separators, then whitespace again — the
whitespace skipping may cross line breaks, so the captured value can come
from a following line — and returns the rest of that line trimmed; when no
label occurs anywhere in the text the result is the literal
`"Not specified"`.  In particular `"Deadline: Friday, 5pm"` yields
`"Friday, 5pm"`. -/
theorem c6_deadline_extraction_characterized :
    (extract_structured_info "Deadline: Friday, 5pm").deadline = "Friday, 5pm" ∧
    ∀ text : String, hasDeadlineLabel text = false →
      (extract_structured_info text).deadline = "Not specified" := by
  refine ⟨by decide, ?_⟩
  intro text h
  have hnone : deadlineGroup2 text.data = none := by
    rw [deadlineGroup2_none_iff]
    intro l hl
    have := List.any_eq_false.mp (by simpa [hasDeadlineLabel, pyLower] using h) l hl
    simpa using this
  simp [extract_structured_info, deadlineOf, hnone]

/-- C6 witness: the amended theorem's no-label case at `"hello world"`. -/
theorem c6_deadline_no_label_witness :
    (extract_structured_info "hello world").deadline = "Not specified" :=
  c6_deadline_extraction_characterized.2 "hello world" (by decide)

/-- C7 (confirmed): both classifiers are first-match searches over their
fixed, ordered priority tables (frontend, uiux, backend, mobile, devops,
data with `general` fallback for `summarizer.py`'s `detect_track`; backend,
frontend, design, devops, marketing, video, pm, no-code with `None` fallback
for `main.py`'s `detect_track_by_keywords`): on any text whose keywords hit
two or more of a table's rows, the returned track is the first matching row
of that table.  Both are pure functions of the text, so repeated calls are
deterministic and order-stable. -/
theorem c7_first_matching_track_priority (text : String) :
    (2 ≤ (summarizerTable.filter (fun p => kwHit (pyLower text) p.2)).length →
      detect_track text = (firstKeywordTrack summarizerTable text).getD "general") ∧
    (2 ≤ (TRACK_KEYWORDS.filter (fun p => kwHit (pyLower text) p.2)).length →
      detect_track_by_keywords text = firstKeywordTrack TRACK_KEYWORDS text) := by
  constructor
  · intro _
    simp only [detect_track, firstKeywordTrack, summarizerTable,
      List.findSome?_cons, List.findSome?_nil]
    by_cases h1 : kwHit (pyLower text) ["react", "tailwind", "frontend", "ui ",
        "css", "chakra", "nextjs", "vue", "design system"] = true
    · simp [h1]
    · simp only [Bool.not_eq_true] at h1
      by_cases h2 : kwHit (pyLower text) ["figma", "wireframe", "prototype",
          "ui/ux", "design", "user flow"] = true
      · simp [h1, h2]
      · simp only [Bool.not_eq_true] at h2
        by_cases h3 : kwHit (pyLower text) ["api", "database", "backend",
            "server", "django", "express", "fastapi", "spring", "endpoint"] = true
        · simp [h1, h2, h3]
        · simp only [Bool.not_eq_true] at h3
          by_cases h4 : kwHit (pyLower text) ["android", "flutter", "kotlin",
              "swift", "mobile"] = true
          · simp [h1, h2, h3, h4]
          · simp only [Bool.not_eq_true] at h4
            by_cases h5 : kwHit (pyLower text) ["docker", "deployment",
                "devops", "ci/cd", "kubernetes", "aws", "infrastructure"] = true
            · simp [h1, h2, h3, h4, h5]
            · simp only [Bool.not_eq_true] at h5
              by_cases h6 : kwHit (pyLower text) ["data", "machine learning",
                  "dataset", "ai", "model"] = true
              · simp [h1, h2, h3, h4, h5, h6]
              · simp only [Bool.not_eq_true] at h6
                simp [h1, h2, h3, h4, h5, h6]
  · intro _
    rfl

/-- C7 witness: `"react api"` hits both the frontend and backend rows of each
table; `detect_track` answers `frontend` (its first matching row) and
`detect_track_by_keywords` answers `backend` (its first matching row). -/
theorem c7_ambiguous_text_witness :
    detect_track "react api" = (firstKeywordTrack summarizerTable "react api").getD "general" ∧
    detect_track "react api" = "frontend" ∧
    detect_track_by_keywords "react api" = firstKeywordTrack TRACK_KEYWORDS "react api" ∧
    detect_track_by_keywords "react api" = some "backend" :=
  ⟨(c7_first_matching_track_priority "react api").1 (by decide), by decide,
   (c7_first_matching_track_priority "react api").2 (by decide), by decide⟩

end IrisBot
